import Mathlib

/-!
Shallow embedding of the RagFlow HTTP client
(`src/ragflow/utils.py`, `src/ragflow/client.py`,
`src/ragflow/exceptions.py`, `src/ragflow/models.py`,
`src/upload_documents_with_parse.py`).

JSON values decoded by Python `json.loads` are modelled by `Json`
(numbers restricted to integers: every envelope code handled by this
client is an integer; floats never reach a comparison).  Python
exceptions raised by the client are modelled by `RagError`; an uncaught
exception of another Python class (`AttributeError`, `TypeError`) is
modelled by the `pyError` constructor.
-/

/-- A JSON value as produced by Python `json.loads`.  Objects are
association lists with distinct keys (Python dicts). -/
inductive Json where
  | null : Json
  | bool (b : Bool) : Json
  | num (n : Int) : Json
  | str (s : String) : Json
  | arr (elems : List Json) : Json
  | obj (fields : List (String × Json)) : Json
deriving Repr

mutual

/-- Structural equality of JSON values (Python `==` restricted to the
values this client compares). -/
def Json.beq : Json → Json → Bool
  | .null, .null => true
  | .bool a, .bool b => a == b
  | .num a, .num b => a == b
  | .str a, .str b => a == b
  | .arr xs, .arr ys => Json.beqList xs ys
  | .obj fs, .obj gs => Json.beqFields fs gs
  | _, _ => false

def Json.beqList : List Json → List Json → Bool
  | [], [] => true
  | x :: xs, y :: ys => Json.beq x y && Json.beqList xs ys
  | _, _ => false

def Json.beqFields : List (String × Json) → List (String × Json) → Bool
  | [], [] => true
  | (k, v) :: fs, (l, w) :: gs => k == l && Json.beq v w && Json.beqFields fs gs
  | _, _ => false

end

instance : BEq Json := ⟨Json.beq⟩

/-- First binding of a key in an association list (Python dict keys are
unique, so first = only). -/
def lookupField : List (String × Json) → String → Option Json
  | [], _ => none
  | (k, v) :: rest, key => if k = key then some v else lookupField rest key

/-- Replace the binding of a key, or append it (Python dict insertion /
`json.loads` duplicate-key resolution keeps the last value). -/
def insertField : List (String × Json) → String → Json → List (String × Json)
  | [], key, v => [(key, v)]
  | (k, w) :: rest, key, v =>
      if k = key then (k, v) :: rest else (k, w) :: insertField rest key v

/-- Python `x.get(key, default)` on a decoded JSON value: `some` of the
stored value (or the default) when `x` is a dict, `none` (modelling an
`AttributeError`) otherwise.  A stored JSON `null` is returned, exactly as
Python `dict.get` returns a stored `None`. -/
def pyDictGet (x : Json) (key : String) (default : Json) : Option Json :=
  match x with
  | .obj fields => some ((lookupField fields key).getD default)
  | _ => none

/-- Python truthiness of a decoded JSON value (`if x:`). -/
def pyTruthy : Json → Bool
  | .null => false
  | .bool b => b
  | .num n => n != 0
  | .str s => s != ""
  | .arr elems => !elems.isEmpty
  | .obj fields => !fields.isEmpty

/-- Python `x is None` on a decoded JSON value. -/
def pyIsNone : Json → Bool
  | .null => true
  | _ => false

/-- Python `v != 0` on a decoded JSON value: `0` and `False` compare
equal to `0`, every other value is unequal. -/
def pyNeZero : Json → Bool
  | .num n => n != 0
  | .bool b => b
  | _ => true

/-- Python `repr` of a decoded JSON value. -/
def pyRepr : Json → String
  | .null => "None"
  | .bool true => "True"
  | .bool false => "False"
  | .num n => toString n
  | .str s => "\x27" ++ s ++ "\x27"
  | .arr elems =>
      "[" ++ String.intercalate ", "
        (elems.attach.map (fun e => pyRepr e.1)) ++ "]"
  | .obj fields =>
      "\x7b" ++ String.intercalate ", "
        (fields.attach.map
          (fun p => "\x27" ++ p.1.1 ++ "\x27: " ++ pyRepr p.1.2)) ++ "\x7d"
decreasing_by
  · have := List.sizeOf_lt_of_mem e.2
    simp only [Json.arr.sizeOf_spec]
    omega
  · obtain ⟨⟨a, b⟩, hm⟩ := p
    have := List.sizeOf_lt_of_mem hm
    simp only [Json.obj.sizeOf_spec]
    simp at this
    omega

/-- Python `str` of a decoded JSON value (as interpolated by an f-string):
a string renders as itself, containers render as their `repr`. -/
def pyStr : Json → String
  | .str s => s
  | j => pyRepr j

/-- The exception classes of `src/ragflow/exceptions.py` that the client
raises, plus `pyError` for an uncaught exception of another Python class
(the `message` argument of each constructor is rendered with `pyStr`
when the source passes a non-string object). -/
inductive RagError where
  | authenticationError (message : String) : RagError
  | resourceNotFoundError (message : String) : RagError
  | apiError (message : String) : RagError
  | pyError (description : String) : RagError
deriving DecidableEq, Repr

/-- Does the first list appear at the head of the second? -/
def listStartsWith : List Char → List Char → Bool
  | [], _ => true
  | _ :: _, [] => false
  | n :: ns, h :: hs => n == h && listStartsWith ns hs

/-- Substring test (Python `needle in haystack` on strings). -/
def substringTest : List Char → List Char → Bool
  | needle, [] => listStartsWith needle []
  | needle, h :: rest => listStartsWith needle (h :: rest) || substringTest needle rest

/-- Python `key in x` on a decoded JSON value: key lookup for a dict,
element membership for a list, substring test for a string, `none`
(modelling a `TypeError`) for null/booleans/numbers. -/
def pyContainsKey (x : Json) (key : String) : Option Bool :=
  match x with
  | .obj fields => some (lookupField fields key).isSome
  | .arr elems => some (elems.contains (Json.str key))
  | .str s => some (substringTest key.toList s.toList)
  | _ => none

/-- `handle_response` from `src/ragflow/utils.py` (lines 22-34), mirrored
statement by statement: `if "code" in response:` — a code unequal to 0
(Python `!=`, under which `False` and `0` are equal) raises `APIError`
carrying the envelope message; a zero code returns `response.get("data")`
when it is not `None` and the full envelope otherwise; without a `code`
field the response is returned unchanged. -/
def handle_response (response : Json) : Except RagError Json :=
  match pyContainsKey response "code" with
  | none => .error (.pyError "TypeError: membership test on a non-container response")
  | some true =>
      match pyDictGet response "code" Json.null with
      | none => .error (.pyError "AttributeError: response has no attribute get")
      | some c =>
          if pyNeZero c then
            match pyDictGet response "message" (.str "未知错误") with
            | none => .error (.pyError "AttributeError: response has no attribute get")
            | some m => .error (.apiError ("API请求失败，错误信息：" ++ pyStr m))
          else
            match pyDictGet response "data" Json.null with
            | none => .error (.pyError "AttributeError: response has no attribute get")
            | some d => if pyIsNone d then .ok response else .ok d
  | some false => .ok response

/-- A non-streaming HTTP response as the client sees it: the status
code, the raw text, and the result of `response.json()` (`none` models a
`json.JSONDecodeError`). -/
structure HttpResponse where
  status_code : Nat
  text : String
  jsonBody : Option Json

/-- The response-interpreting tail of `RagFlowClient._request`
(`src/ragflow/client.py` lines 57-75) for the non-streaming case: decode
the JSON body (`APIError` on failure) and then map the status code —
401 raises `AuthenticationError`, 404 `ResourceNotFoundError`, any other
status ≥ 400 `APIError`, each carrying `data.get("message", default)`;
a status below 400 returns the decoded body. -/
def request_interpret (r : HttpResponse) : Except RagError Json :=
  match r.jsonBody with
  | none => .error (.apiError ("Invalid JSON response: " ++ r.text))
  | some data =>
      if 400 ≤ r.status_code then
        if r.status_code = 401 then
          match pyDictGet data "message" (.str "Authentication failed") with
          | none => .error (.pyError "AttributeError: data has no attribute get")
          | some m => .error (.authenticationError (pyStr m))
        else if r.status_code = 404 then
          match pyDictGet data "message" (.str "Resource not found") with
          | none => .error (.pyError "AttributeError: data has no attribute get")
          | some m => .error (.resourceNotFoundError (pyStr m))
        else
          match pyDictGet data "message" (.str "Unknown error") with
          | none => .error (.pyError "AttributeError: data has no attribute get")
          | some m => .error (.apiError ("API request failed: " ++ pyStr m))
      else .ok data

/-- The response-handling tail of `RagFlowClient.upload_documents`
(`src/ragflow/client.py` lines 212-232), which bypasses `_request`:
decode the JSON body (`APIError` on failure); any status ≥ 400 raises
`APIError` with the body message (one branch, no 401/404 mapping); on
success return `data.get("data", [])` — the raw document-mapping list,
with no `Document` model construction. -/
def upload_documents_interpret (r : HttpResponse) : Except RagError Json :=
  match r.jsonBody with
  | none => .error (.apiError ("Invalid JSON response: " ++ r.text))
  | some data =>
      if 400 ≤ r.status_code then
        match pyDictGet data "message" (.str "Unknown error") with
        | none => .error (.pyError "AttributeError: data has no attribute get")
        | some m => .error (.apiError ("API request failed: " ++ pyStr m))
      else
        match pyDictGet data "data" (.arr []) with
        | none => .error (.pyError "AttributeError: data has no attribute get")
        | some d => .ok d

/-- The response-handling part of `RagFlowClient.download_document`
(`src/ragflow/client.py` lines 256-271), which also bypasses `_request`
(it calls `self.session.get(..., stream=True)` itself): on status ≥ 400
it tries to decode the body — a decoded mapping gives
`data.get("message", "Unknown error")`, a decode failure falls back to
the raw text (only `json.JSONDecodeError` is caught by its `try`) — and
raises `APIError` with that message; below 400 the body is streamed to
the caller's `output_file` and the method returns `None`. -/
def download_document_interpret (r : HttpResponse) : Except RagError Unit :=
  if 400 ≤ r.status_code then
    match r.jsonBody with
    | some data =>
        match pyDictGet data "message" (.str "Unknown error") with
        | none => .error (.pyError "AttributeError: data has no attribute get")
        | some m => .error (.apiError ("Failed to download document: " ++ pyStr m))
    | none => .error (.apiError ("Failed to download document: " ++ r.text))
  else .ok ()

/-!
A model of Python `json.loads` sufficient for this client: objects,
arrays, strings (with the single-character escapes; `\u` escapes are not
modelled), integers (floats are not modelled: no float literal occurs in
any stream consumed here), `true`, `false`, `null`.  Recursion is fueled;
every recursive call consumes at least one character, so a fuel of
`length + 1` never runs out.
-/

/-- The whitespace characters `json.loads` skips between tokens. -/
def jsonWsChars : List Char := [' ', '\t', '\n', '\r']

/-- Skip inter-token whitespace. -/
def skipJsonWs (cs : List Char) : List Char :=
  cs.dropWhile (fun c => jsonWsChars.contains c)

/-- Parse the body of a JSON string literal (after the opening quote),
returning the decoded string and the rest of the input. -/
def parseJsonString : Nat → List Char → List Char → Option (String × List Char)
  | 0, _, _ => none
  | _ + 1, [], _ => none
  | fuel + 1, c :: rest, acc =>
      if c = '"' then some (String.mk acc.reverse, rest)
      else if c = '\\' then
        match rest with
        | [] => none
        | e :: rest2 =>
            let decoded : Option Char :=
              if e = '"' then some '"'
              else if e = '\\' then some '\\'
              else if e = '/' then some '/'
              else if e = 'n' then some '\n'
              else if e = 't' then some '\t'
              else if e = 'r' then some '\r'
              else if e = 'b' then some '\x08'
              else if e = 'f' then some '\x0c'
              else none
            match decoded with
            | some d => parseJsonString fuel rest2 (d :: acc)
            | none => none
      else parseJsonString fuel rest (c :: acc)

/-- Decimal digits to a natural number. -/
def digitsToNat (ds : List Char) : Nat :=
  ds.foldl (fun n c => n * 10 + (c.toNat - 48)) 0

/-- Parse a JSON integer literal (an optional minus sign and digits,
with the leading-zero restriction); a following `.`, `e` or `E` would
start a float literal, which this model does not accept. -/
def parseJsonNumber (cs : List Char) : Option (Json × List Char) :=
  let stripped := match cs with
    | '-' :: r => (true, r)
    | _ => (false, cs)
  let ds := stripped.2.takeWhile Char.isDigit
  let rest := stripped.2.dropWhile Char.isDigit
  if ds.isEmpty then none
  else if 1 < ds.length && ds.headD ' ' = '0' then none
  else
    match rest with
    | c :: _ =>
        if c = '.' || c = 'e' || c = 'E' then none
        else some (.num (if stripped.1 then -(digitsToNat ds : Int) else digitsToNat ds), rest)
    | [] => some (.num (if stripped.1 then -(digitsToNat ds : Int) else digitsToNat ds), rest)

mutual

/-- Parse one JSON value from the input (leading whitespace already
skipped). -/
def parseJsonValue : Nat → List Char → Option (Json × List Char)
  | 0, _ => none
  | fuel + 1, cs =>
      match cs with
      | [] => none
      | c :: rest =>
          if c = '"' then
            match parseJsonString fuel rest [] with
            | some (s, r) => some (.str s, r)
            | none => none
          else if c = '{' then
            match skipJsonWs rest with
            | '}' :: r => some (.obj [], r)
            | cs2 => parseJsonMembers fuel cs2 []
          else if c = '[' then
            match skipJsonWs rest with
            | ']' :: r => some (.arr [], r)
            | cs2 => parseJsonItems fuel cs2 []
          else if c = 't' then
            match rest with
            | 'r' :: 'u' :: 'e' :: r => some (.bool true, r)
            | _ => none
          else if c = 'f' then
            match rest with
            | 'a' :: 'l' :: 's' :: 'e' :: r => some (.bool false, r)
            | _ => none
          else if c = 'n' then
            match rest with
            | 'u' :: 'l' :: 'l' :: r => some (.null, r)
            | _ => none
          else parseJsonNumber cs

/-- Parse the members of a JSON object (after `{` and any whitespace,
first member expected). -/
def parseJsonMembers : Nat → List Char → List (String × Json) → Option (Json × List Char)
  | 0, _, _ => none
  | fuel + 1, cs, acc =>
      match cs with
      | '"' :: rest =>
          match parseJsonString fuel rest [] with
          | none => none
          | some (key, r1) =>
              match skipJsonWs r1 with
              | ':' :: r2 =>
                  match parseJsonValue fuel (skipJsonWs r2) with
                  | none => none
                  | some (v, r3) =>
                      match skipJsonWs r3 with
                      | ',' :: r4 => parseJsonMembers fuel (skipJsonWs r4) (insertField acc key v)
                      | '}' :: r4 => some (.obj (insertField acc key v), r4)
                      | _ => none
              | _ => none
      | _ => none

/-- Parse the items of a JSON array (after `[` and any whitespace, first
item expected). -/
def parseJsonItems : Nat → List Char → List Json → Option (Json × List Char)
  | 0, _, _ => none
  | fuel + 1, cs, acc =>
      match parseJsonValue fuel cs with
      | none => none
      | some (v, r1) =>
          match skipJsonWs r1 with
          | ',' :: r2 => parseJsonItems fuel (skipJsonWs r2) (acc ++ [v])
          | ']' :: r2 => some (.arr (acc ++ [v]), r2)
          | _ => none

end

/-- Python `json.loads`: parse one value, allow surrounding whitespace,
require the whole input to be consumed; `none` models a
`json.JSONDecodeError`. -/
def json_loads (s : String) : Option Json :=
  match parseJsonValue (s.length + 1) (skipJsonWs s.toList) with
  | some (v, rest) => if (skipJsonWs rest).isEmpty then some v else none
  | none => none

/-- Python `str.lstrip(chars)`: remove every leading character that
belongs to the character SET `chars` (not the literal prefix). -/
def pyLstrip (s : String) (chars : String) : String :=
  String.mk (s.toList.dropWhile (fun c => chars.toList.contains c))

/-- The Python `str.strip()` whitespace set. -/
def pyWsChars : List Char := [' ', '\t', '\n', '\r', '\x0b', '\x0c']

/-- Python `str.strip()` with no argument: remove leading and trailing
whitespace. -/
def pyStripWs (s : String) : String :=
  String.mk
    (((s.toList.dropWhile (fun c => pyWsChars.contains c)).reverse.dropWhile
      (fun c => pyWsChars.contains c)).reverse)

/-- The streaming branch of `RagFlowClient.create_chat_completion`
(`src/ragflow/client.py` lines 88-101): fold over the response lines,
skipping falsy (empty) lines; each kept line is passed through
`line.lstrip("data: ").strip()` — note `lstrip` strips the character set
of `"data: "` — and, when the result is non-empty, parsed with
`json.loads`; parsed chunks are appended in order, parse failures are
skipped (`continue`).  `stream_step` is the loop body for one line. -/
def stream_step (chunks : List Json) (line : String) : List Json :=
  if line != "" then
    let json_line := pyStripWs (pyLstrip line "data: ")
    if json_line != "" then
      match json_loads json_line with
      | some chunk => chunks ++ [chunk]
      | none => chunks
    else chunks
  else chunks

/-- The whole streaming loop of `create_chat_completion`: `chunks = []`
then `stream_step` over every line, returning the accumulated list. -/
def create_chat_completion_stream (lines : List String) : List Json :=
  lines.foldl stream_step []

/-- The per-line effect of the streaming loop, for stating the loop as a
`filterMap`. -/
def stream_line_chunk (line : String) : Option Json :=
  if line != "" then
    let json_line := pyStripWs (pyLstrip line "data: ")
    if json_line != "" then json_loads json_line else none
  else none

/-- Modelled from the claim wording of C4 (and spec §4.3), NOT from the
source: "exactly the literal prefix `data: ` is stripped from the front
of the line", the rest of the processing unchanged.  Named `spec_` to
mark it as the claim's version, to be compared with
`create_chat_completion_stream`. -/
def spec_stream_line_chunk (line : String) : Option Json :=
  if line != "" then
    let cs := line.toList
    let rest :=
      if listStartsWith "data: ".toList cs then String.mk (cs.drop 6) else line
    let json_line := pyStripWs rest
    if json_line != "" then json_loads json_line else none
  else none

/-- The claim-worded streaming interpreter (see `spec_stream_line_chunk`). -/
def spec_stream (lines : List String) : List Json :=
  lines.filterMap spec_stream_line_chunk

/-!
Facade methods.  Each `*_interpret` function is the response-handling
part of one facade method of `RagFlowClient`, as a function of the
outcome of its `self._request(...)` call (`.error e` when `_request`
raised `e`): what the method does between receiving the transport
outcome and producing its own result or exception.  Model-class
construction (`models.Dataset(**...)` etc.) follows these steps in the
source and can only add pydantic validation errors; it is outside these
functions.
-/

/-- `create_chat_completion`, non-streaming branch
(`src/ragflow/client.py` lines 102-110): an exception from `_request`
itself propagates (the `try` wraps only `handle_response`); an
`APIError` from `handle_response` is caught, printed, and turned into a
`None` return; the parsed mapping is returned otherwise (then fed to
`ChatCompletionResponse(**parsed_data)`). -/
def create_chat_completion_nonstream (tr : Except RagError Json) :
    Except RagError (Option Json) :=
  match tr with
  | .error e => .error e
  | .ok response =>
      match handle_response response with
      | .error (.apiError _) => .ok none
      | .error e => .error e
      | .ok parsed => .ok (some parsed)

/-- `create_dataset` (`src/ragflow/client.py` line 133): the result of
`_request` is fed to `handle_response`; exceptions propagate. -/
def create_dataset_interpret (tr : Except RagError Json) : Except RagError Json :=
  match tr with
  | .error e => .error e
  | .ok response => handle_response response

/-- `list_datasets` (`src/ragflow/client.py` line 157): as
`create_dataset` (the list comprehension over the result follows). -/
def list_datasets_interpret (tr : Except RagError Json) : Except RagError Json :=
  match tr with
  | .error e => .error e
  | .ok response => handle_response response

/-- `delete_datasets` (`src/ragflow/client.py` line 162): the result of
`_request` is discarded; exceptions propagate. -/
def delete_datasets_interpret (tr : Except RagError Json) : Except RagError Unit :=
  match tr with
  | .error e => .error e
  | .ok _ => .ok ()

/-- `update_dataset` (`src/ragflow/client.py` line 180): result
discarded; exceptions propagate. -/
def update_dataset_interpret (tr : Except RagError Json) : Except RagError Unit :=
  match tr with
  | .error e => .error e
  | .ok _ => .ok ()

/-- `update_document` (`src/ragflow/client.py` line 254): result
discarded; exceptions propagate. -/
def update_document_interpret (tr : Except RagError Json) : Except RagError Unit :=
  match tr with
  | .error e => .error e
  | .ok _ => .ok ()

/-- `list_chunks` (`src/ragflow/client.py` line 300): the `_request`
result is returned as-is, with no `handle_response`; exceptions
propagate. -/
def list_chunks_interpret (tr : Except RagError Json) : Except RagError Json :=
  tr

/-- `retrieve_chunks` (`src/ragflow/client.py` line 349): `_request`
result fed to `handle_response`; exceptions propagate. -/
def retrieve_chunks_interpret (tr : Except RagError Json) : Except RagError Json :=
  match tr with
  | .error e => .error e
  | .ok response => handle_response response

/-- `get_chunk` (`src/ragflow/client.py` line 360): `_request` result
fed to `handle_response`; exceptions propagate. -/
def get_chunk_interpret (tr : Except RagError Json) : Except RagError Json :=
  match tr with
  | .error e => .error e
  | .ok response => handle_response response

/-- `update_chunk` (`src/ragflow/client.py` line 383): result discarded;
exceptions propagate. -/
def update_chunk_interpret (tr : Except RagError Json) : Except RagError Unit :=
  match tr with
  | .error e => .error e
  | .ok _ => .ok ()

/-- `delete_chunk` (`src/ragflow/client.py` line 392): result discarded;
exceptions propagate. -/
def delete_chunk_interpret (tr : Except RagError Json) : Except RagError Unit :=
  match tr with
  | .error e => .error e
  | .ok _ => .ok ()

/-- `parse_documents` (`src/ragflow/client.py` lines 407-408):
`_request` result fed to `handle_response`; exceptions propagate. -/
def parse_documents_interpret (tr : Except RagError Json) : Except RagError Json :=
  match tr with
  | .error e => .error e
  | .ok response => handle_response response

/-- `None` for an unset optional argument, a JSON string otherwise (how
`requests` serialises the value placed in a body dict). -/
def optStrToJson : Option String → Json
  | some s => .str s
  | none => .null

/-- The body dict built by `RagFlowClient.create_dataset`
(`src/ragflow/client.py` lines 123-130): every key is inserted
unconditionally, so unset optional arguments are sent as JSON `null`;
`parser_config or {}` replaces a falsy value by the empty dict. -/
def create_dataset_body (name : String) (embedding_model description : Option String)
    (chunk_method : String) (parser_config : Option Json) (permission : String) :
    List (String × Json) :=
  [("name", .str name),
   ("embedding_model", optStrToJson embedding_model),
   ("description", optStrToJson description),
   ("chunk_method", .str chunk_method),
   ("parser_config",
     match parser_config with
     | some j => if pyTruthy j then j else .obj []
     | none => .obj []),
   ("permission", .str permission)]

/-- One conditional insertion `if value: data[key] = value` for a string
argument (Python truthiness: `None` and `""` are both skipped). -/
def truthyStrEntry (key : String) : Option String → List (String × Json)
  | some s => if s != "" then [(key, .str s)] else []
  | none => []

/-- The body dict built by `RagFlowClient.update_dataset`
(`src/ragflow/client.py` lines 172-178): it starts empty and each
optional argument is inserted only when truthy. -/
def update_dataset_body (name embedding_model chunk_method : Option String) :
    List (String × Json) :=
  truthyStrEntry "name" name ++
  truthyStrEntry "embedding_model" embedding_model ++
  truthyStrEntry "chunk_method" chunk_method

/-- The `Document` pydantic model (`src/ragflow/models.py` lines 72-82):
all ten fields are required. -/
structure Document where
  id : String
  name : String
  dataset_id : String
  location : String
  size : Int
  type : String
  chunk_method : String
  parser_config : List (String × Json)
  run : String
  created_by : String

/-- A required pydantic `str` field. -/
def getStrField (fields : List (String × Json)) (key : String) : Option String :=
  match lookupField fields key with
  | some (.str s) => some s
  | _ => none

/-- A required pydantic `int` field. -/
def getIntField (fields : List (String × Json)) (key : String) : Option Int :=
  match lookupField fields key with
  | some (.num n) => some n
  | _ => none

/-- A required pydantic `Dict[str, Any]` field. -/
def getObjField (fields : List (String × Json)) (key : String) :
    Option (List (String × Json)) :=
  match lookupField fields key with
  | some (.obj fs) => some fs
  | _ => none

/-- `Document(**item)`: pydantic validation of one document mapping;
`none` models a `ValidationError` (missing or mistyped field). -/
def Document.fromJson (j : Json) : Option Document :=
  match j with
  | .obj fields => do
      let id ← getStrField fields "id"
      let name ← getStrField fields "name"
      let dataset_id ← getStrField fields "dataset_id"
      let location ← getStrField fields "location"
      let size ← getIntField fields "size"
      let type ← getStrField fields "type"
      let chunk_method ← getStrField fields "chunk_method"
      let parser_config ← getObjField fields "parser_config"
      let run ← getStrField fields "run"
      let created_by ← getStrField fields "created_by"
      some ⟨id, name, dataset_id, location, size, type, chunk_method,
            parser_config, run, created_by⟩
  | _ => none

/-- The `Dataset` pydantic model (`src/ragflow/models.py` lines 38-69);
`create_date`/`update_date` hold the instant produced by the RFC-1123
validator, abstracted as an epoch value. -/
structure Dataset where
  id : String
  name : String
  avatar : Option String := none
  description : Option String := none
  embedding_model : String
  chunk_method : String
  parser_config : List (String × Json)
  permission : String := "me"
  create_date : Int
  update_date : Int
  chunk_count : Int
  document_count : Int
  token_num : Int
  status : String

/-!
The batch script `upload_and_parse_documents`
(`src/upload_documents_with_parse.py` lines 16-97).  The remote side and
the filesystem are abstracted by `ScriptEnv`; the script's observable
behaviour — which stages ran, which document ids were collected, and the
final result — is `ScriptOutcome`.  The script's `except` clauses print
and re-raise, so propagation is unchanged.
-/

/-- `SUPPORTED_FILE_TYPES` (`src/upload_documents_with_parse.py` lines
7-13). -/
def SUPPORTED_FILE_TYPES : List (String × List String) :=
  [("word", [".doc", ".docx"]),
   ("pdf", [".pdf"]),
   ("excel", [".xls", ".xlsx"]),
   ("markdown", [".md"]),
   ("txt", [".txt"])]

/-- `any(ext in exts for exts in SUPPORTED_FILE_TYPES.values())`. -/
def isSupportedExt (ext : String) : Bool :=
  SUPPORTED_FILE_TYPES.any (fun p => p.2.contains ext)

/-- The extension component of `os.path.splitext(filename)`: everything
from the last dot, where leading dots of the name are not extension
separators (`.bashrc` has no extension). -/
def splitextExt (filename : String) : String :=
  let cs := filename.toList
  let lead := cs.takeWhile (fun c => c = '.')
  let rest := cs.drop lead.length
  let revTail := rest.reverse.takeWhile (fun c => c ≠ '.')
  if revTail.length = rest.length then ""
  else String.mk ('.' :: revTail.reverse)

/-- `os.path.join(dir, name)` for a relative `name`. -/
def osPathJoin (dir name : String) : String :=
  if dir.endsWith "/" then dir ++ name else dir ++ "/" ++ name

/-- One entry of `os.listdir(doc_dir)` together with its
`os.path.isfile` status. -/
structure DirEntry where
  entryName : String
  isFile : Bool

/-- The world the script runs against: the outcome of the dataset lookup,
the filesystem, the per-file upload outcomes, and the parse-trigger
outcome. -/
structure ScriptEnv where
  /-- Result of `client.list_datasets(name=dataset_name)`. -/
  datasets : Except RagError (List Dataset)
  /-- `os.path.exists(doc_dir)`. -/
  dirExists : Bool
  /-- `os.path.isdir(doc_dir)`. -/
  dirIsDir : Bool
  /-- `os.listdir(doc_dir)` with file-kind flags. -/
  entries : List DirEntry
  /-- Result of `client.upload_documents(dataset_id, [f])` for the file
  at a path (`upload_documents` returns `data.get("data", [])`). -/
  uploadFor : String → Except RagError Json
  /-- Result of `client.parse_documents(dataset_id, uploaded_doc_ids)`. -/
  parseResult : Except RagError Json

/-- Exceptions the script can propagate. -/
inductive ScriptError where
  | ragError (e : RagError) : ScriptError
  | fileNotFoundError (message : String) : ScriptError
  | notADirectoryError (message : String) : ScriptError
deriving DecidableEq, Repr

/-- What the script observably did. -/
structure ScriptOutcome where
  /-- Did execution reach the directory scan (step 2)? -/
  scannedDir : Bool := false
  /-- The file paths for which an upload was attempted, in order. -/
  uploadsAttempted : List String := []
  /-- `uploaded_doc_ids` as collected by the upload loop. -/
  uploadedDocIds : List Json := []
  /-- Was `client.parse_documents` called (step 4)? -/
  parseTriggered : Bool := false
  /-- Normal return or the propagated exception. -/
  result : Except ScriptError Unit

/-- The upload loop (`src/upload_documents_with_parse.py` lines 66-75):
upload each file in turn; an exception propagates; when the returned
`docs` is truthy, `docs[0].get("id")` is appended (a non-list truthy
`docs` would fail the subscript/`get` — `pyError`); a falsy `docs` is
only warned about. -/
def uploadLoop (uploadFor : String → Except RagError Json) :
    List String → List Json → Except RagError (List Json)
  | [], acc => .ok acc
  | path :: rest, acc =>
      match uploadFor path with
      | .error e => .error e
      | .ok docs =>
          if pyTruthy docs then
            match docs with
            | .arr (d :: _) =>
                match pyDictGet d "id" Json.null with
                | some v => uploadLoop uploadFor rest (acc ++ [v])
                | none => .error (.pyError "AttributeError: docs element has no attribute get")
            | _ => .error (.pyError "TypeError: docs is not subscriptable")
          else uploadLoop uploadFor rest acc

/-- `upload_and_parse_documents` (`src/upload_documents_with_parse.py`
lines 16-97): resolve the dataset by name (empty lookup raises
`ResourceNotFoundError` — no auto-creation); check the directory; filter
`os.listdir` by `os.path.isfile` and the extension allowlist; upload the
files one at a time; trigger parsing for the collected ids (the final
`parse_result.get("code") == 0` check only chooses a log line). -/
def upload_and_parse_documents (env : ScriptEnv) (dataset_name doc_dir : String) :
    ScriptOutcome :=
  match env.datasets with
  | .error e => { result := .error (.ragError e) }
  | .ok datasets =>
      match datasets with
      | [] =>
          { result := .error (.ragError (.resourceNotFoundError
              ("数据集 " ++ dataset_name ++ " 不存在"))) }
      | _dataset :: _ =>
          if !env.dirExists then
            { result := .error (.fileNotFoundError ("文档目录不存在: " ++ doc_dir)) }
          else if !env.dirIsDir then
            { result := .error (.notADirectoryError ("路径不是目录: " ++ doc_dir)) }
          else
            let file_paths := (env.entries.filter
              (fun f => f.isFile && isSupportedExt (splitextExt f.entryName).toLower)).map
              (fun f => osPathJoin doc_dir f.entryName)
            if file_paths.isEmpty then
              { scannedDir := true, result := .ok () }
            else
              match uploadLoop env.uploadFor file_paths [] with
              | .error e =>
                  { scannedDir := true, uploadsAttempted := file_paths,
                    result := .error (.ragError e) }
              | .ok ids =>
                  if ids.isEmpty then
                    { scannedDir := true, uploadsAttempted := file_paths,
                      result := .ok () }
                  else
                    match env.parseResult with
                    | .error e =>
                        { scannedDir := true, uploadsAttempted := file_paths,
                          uploadedDocIds := ids, parseTriggered := true,
                          result := .error (.ragError e) }
                    | .ok parse_result =>
                        match pyDictGet parse_result "code" Json.null with
                        | none =>
                            { scannedDir := true, uploadsAttempted := file_paths,
                              uploadedDocIds := ids, parseTriggered := true,
                              result := .error (.ragError (.pyError
                                "AttributeError: parse_result has no attribute get")) }
                        | some _ =>
                            { scannedDir := true, uploadsAttempted := file_paths,
                              uploadedDocIds := ids, parseTriggered := true,
                              result := .ok () }

/-!  Theorems settling the claims. -/

/-- C1: for every non-streaming HTTP response with status ≥ 400 and a
JSON mapping body whose `message` field is the string `m`, `_request`
raises the status-mapped error carrying `m`: 401 raises
`AuthenticationError m`, 404 raises `ResourceNotFoundError m`, and every
other status ≥ 400 raises `APIError` whose message embeds `m`. -/
theorem c1_request_status_mapped_error (status : Nat) (text : String)
    (fields : List (String × Json)) (m : String)
    (hstatus : 400 ≤ status)
    (hmsg : lookupField fields "message" = some (Json.str m)) :
    request_interpret ⟨status, text, some (Json.obj fields)⟩ =
      .error (if status = 401 then .authenticationError m
        else if status = 404 then .resourceNotFoundError m
        else .apiError ("API request failed: " ++ m)) := by
  unfold request_interpret
  simp only [pyDictGet, hmsg, Option.getD_some]
  rw [if_pos hstatus]
  by_cases h401 : status = 401 <;> by_cases h404 : status = 404 <;>
    simp [h401, h404, pyStr]

/-- Witness for C1 at a concrete 401 response. -/
theorem c1_request_status_mapped_error_witness :
    request_interpret ⟨401, "", some (Json.obj [("message", Json.str "bad key")])⟩ =
      .error (.authenticationError "bad key") := by
  have h := c1_request_status_mapped_error 401 "" [("message", Json.str "bad key")]
    "bad key" (by decide) rfl
  simpa using h

/-- C9: `upload_documents` maps EVERY status ≥ 400 with a JSON mapping
body to `APIError` — also 401 and 404, which `_request` would map to
`AuthenticationError` / `ResourceNotFoundError` — because it bypasses
`_request` and has a single error branch. -/
theorem c9_upload_documents_single_error_branch (status : Nat) (text : String)
    (fields : List (String × Json))
    (hstatus : 400 ≤ status) :
    upload_documents_interpret ⟨status, text, some (Json.obj fields)⟩ =
      .error (.apiError ("API request failed: " ++
        pyStr ((lookupField fields "message").getD (Json.str "Unknown error")))) ∧
    (∀ m, upload_documents_interpret ⟨status, text, some (Json.obj fields)⟩ ≠
      .error (.authenticationError m)) ∧
    (∀ m, upload_documents_interpret ⟨status, text, some (Json.obj fields)⟩ ≠
      .error (.resourceNotFoundError m)) := by
  have heq : upload_documents_interpret ⟨status, text, some (Json.obj fields)⟩ =
      .error (.apiError ("API request failed: " ++
        pyStr ((lookupField fields "message").getD (Json.str "Unknown error")))) := by
    unfold upload_documents_interpret
    simp [pyDictGet, hstatus]
  refine ⟨heq, fun m h => ?_, fun m h => ?_⟩ <;> rw [heq] at h <;> simp at h

/-- Witness for C9 at a concrete 404 response: still `APIError`. -/
theorem c9_upload_documents_single_error_branch_witness :
    upload_documents_interpret ⟨404, "", some (Json.obj [("message", Json.str "no ds")])⟩ =
      .error (.apiError "API request failed: no ds") := by
  have h := (c9_upload_documents_single_error_branch 404 ""
    [("message", Json.str "no ds")] (by decide)).1
  simpa [pyStr] using h

/-- C10: in `_request`, JSON decoding precedes the status check: a body
that is not valid JSON raises `APIError` whatever the status code — in
particular a 401 or 404 response with a non-JSON body never reaches the
`AuthenticationError` / `ResourceNotFoundError` branches. -/
theorem c10_request_decode_precedes_status (status : Nat) (text : String) :
    request_interpret ⟨status, text, none⟩ =
      .error (.apiError ("Invalid JSON response: " ++ text)) := rfl

/-- C2 counterexample: in the envelope `{"code": 0, "data": null}` the
`data` field IS present (its value is JSON `null`), yet
`handle_response` returns the full envelope, not the value of `data` —
the source tests `data is not None`, not field presence. -/
theorem c2_counterexample_null_data :
    lookupField [("code", Json.num 0), ("data", Json.null)] "data" = some Json.null ∧
    handle_response (Json.obj [("code", Json.num 0), ("data", Json.null)]) =
      .ok (Json.obj [("code", Json.num 0), ("data", Json.null)]) ∧
    handle_response (Json.obj [("code", Json.num 0), ("data", Json.null)]) ≠
      .ok Json.null := by
  refine ⟨rfl, rfl, fun h => ?_⟩
  have h2 : Except.ok (ε := RagError) (Json.obj [("code", Json.num 0), ("data", Json.null)]) =
      Except.ok Json.null := h
  exact Json.noConfusion (Except.ok.inj h2)

/-- C2 amended: for a mapping envelope with `code = 0`, `handle_response`
returns the value of `data` when that value is present AND not `null`;
when `data` is absent or its value is `null` (`response.get("data")` is
`None` either way), it returns the full envelope. -/
theorem c2_handle_response_unwrap (fields : List (String × Json))
    (hcode : lookupField fields "code" = some (Json.num 0)) :
    (∀ d, lookupField fields "data" = some d → pyIsNone d = false →
      handle_response (Json.obj fields) = .ok d) ∧
    ((lookupField fields "data").getD Json.null = Json.null →
      handle_response (Json.obj fields) = .ok (Json.obj fields)) := by
  constructor
  · intro d hd hnn
    unfold handle_response
    simp [pyContainsKey, pyDictGet, hcode, hd, pyNeZero, hnn]
  · intro habs
    unfold handle_response
    simp [pyContainsKey, pyDictGet, hcode, habs, pyNeZero, pyIsNone]

/-- Witness for the amended C2: a present non-null `data` is unwrapped. -/
theorem c2_handle_response_unwrap_witness :
    handle_response (Json.obj [("code", Json.num 0), ("data", Json.str "x")]) =
      .ok (Json.str "x") :=
  (c2_handle_response_unwrap [("code", Json.num 0), ("data", Json.str "x")] rfl).1
    (Json.str "x") rfl rfl

/-- C3: a mapping envelope whose `code` field is present and unequal to 0
(Python `!=`, i.e. `pyNeZero`) makes `handle_response` raise `APIError`
carrying the envelope's `message` (with a default when absent) —
`handle_response` never sees the HTTP status, so this holds regardless of
it; and a mapping without a `code` field is returned unchanged. -/
theorem c3_handle_response_nonzero_code (fields : List (String × Json)) (c : Json)
    (hcode : lookupField fields "code" = some c)
    (hnz : pyNeZero c = true) :
    handle_response (Json.obj fields) =
      .error (.apiError ("API请求失败，错误信息：" ++
        pyStr ((lookupField fields "message").getD (Json.str "未知错误")))) ∧
    (∀ gs : List (String × Json), lookupField gs "code" = none →
      handle_response (Json.obj gs) = .ok (Json.obj gs)) := by
  constructor
  · unfold handle_response
    simp [pyContainsKey, pyDictGet, hcode, hnz]
  · intro gs hgs
    unfold handle_response
    simp [pyContainsKey, pyDictGet, hgs]

/-- Witness for C3: `{"code": 1, "message": "boom"}` raises `APIError`
carrying `boom`. -/
theorem c3_handle_response_nonzero_code_witness :
    handle_response (Json.obj [("code", Json.num 1), ("message", Json.str "boom")]) =
      .error (.apiError ("API请求失败，错误信息：boom")) := by
  have h := (c3_handle_response_nonzero_code
    [("code", Json.num 1), ("message", Json.str "boom")] (Json.num 1) rfl rfl).1
  simpa [pyStr] using h

/-- One streaming-loop step appends exactly the chunk (if any) that
`stream_line_chunk` extracts from the line. -/
theorem stream_step_eq (chunks : List Json) (line : String) :
    stream_step chunks line = chunks ++ (stream_line_chunk line).toList := by
  unfold stream_step stream_line_chunk
  cases hb : (line != "") <;> simp only [hb, if_true, if_false, Bool.false_eq_true]
  · simp
  · cases hj : (pyStripWs (pyLstrip line "data: ") != "") <;>
      simp only [hj, if_true, if_false, Bool.false_eq_true]
    · simp
    · cases hl : json_loads (pyStripWs (pyLstrip line "data: ")) <;> simp [hl]

/-- The streaming loop, started from any accumulator, appends the
chunks extracted per line, in input order. -/
theorem stream_foldl_eq (lines : List String) (acc : List Json) :
    lines.foldl stream_step acc = acc ++ lines.filterMap stream_line_chunk := by
  induction lines generalizing acc with
  | nil => simp
  | cons l ls ih =>
      rw [List.foldl_cons, stream_step_eq, ih]
      cases h : stream_line_chunk l <;> simp [h]

/-- C4 counterexample: the line `data: true` refutes "exactly the
literal prefix `data: ` is stripped from the front".  `str.lstrip`
removes the character SET of its argument, so the leading `t` of `true`
is also eaten, the remainder `rue` fails to parse, and the chunk is
dropped — while the claim's literal-prefix reading (`spec_stream`) keeps
the chunk `true`. -/
theorem c4_counterexample_lstrip_charset :
    create_chat_completion_stream ["data: true"] = [] ∧
    spec_stream ["data: true"] = [Json.bool true] ∧
    ([] : List Json) ≠ [Json.bool true] :=
  ⟨rfl, rfl, fun h => List.noConfusion h⟩

/-- C4 amended: for every non-blank line, all leading characters drawn
from the set of `"data: "` are stripped (Python `str.lstrip`), the
remainder is whitespace-stripped and, when non-empty, parsed as JSON;
parsed chunks accumulate in input order and parse failures are silently
dropped; in particular the claim's concrete example — `data: ` followed
by the chunk, a blank line, and `garbage` — still yields the one-element
sequence. -/
theorem c4_stream_accumulation (lines : List String) :
    create_chat_completion_stream lines = lines.filterMap stream_line_chunk ∧
    create_chat_completion_stream ["data: \x7b\"id\":\"1\"\x7d", "", "garbage"] =
      [Json.obj [("id", Json.str "1")]] := by
  constructor
  · unfold create_chat_completion_stream
    rw [stream_foldl_eq]
    simp
  · rfl

/-- C5: the non-streaming chat-completion path catches an `APIError`
raised by `handle_response` (printing it) and returns `None` instead of
propagating — while every other facade method propagates
transport/interpreter errors to the caller: the twelve `_request`-based
methods return the transport exception and the interpreter's `APIError`
unchanged, and the two methods that perform their own transport call,
`upload_documents` and `download_document`, raise on every error
condition (status ≥ 400, or an undecodable body for
`upload_documents`) — none of their error conditions is ever turned
into a normal return. -/
theorem c5_chat_swallows_interpreter_apierror (response : Json) (m : String)
    (h : handle_response response = .error (.apiError m)) :
    create_chat_completion_nonstream (.ok response) = .ok none ∧
    (∀ e : RagError,
      create_chat_completion_nonstream (.error e) = .error e ∧
      create_dataset_interpret (.error e) = .error e ∧
      list_datasets_interpret (.error e) = .error e ∧
      delete_datasets_interpret (.error e) = .error e ∧
      update_dataset_interpret (.error e) = .error e ∧
      update_document_interpret (.error e) = .error e ∧
      list_chunks_interpret (.error e) = .error e ∧
      retrieve_chunks_interpret (.error e) = .error e ∧
      get_chunk_interpret (.error e) = .error e ∧
      update_chunk_interpret (.error e) = .error e ∧
      delete_chunk_interpret (.error e) = .error e ∧
      parse_documents_interpret (.error e) = .error e) ∧
    (create_dataset_interpret (.ok response) = .error (.apiError m) ∧
      list_datasets_interpret (.ok response) = .error (.apiError m) ∧
      retrieve_chunks_interpret (.ok response) = .error (.apiError m) ∧
      get_chunk_interpret (.ok response) = .error (.apiError m) ∧
      parse_documents_interpret (.ok response) = .error (.apiError m)) ∧
    (∀ (status : Nat) (text : String) (fields : List (String × Json)),
      400 ≤ status →
      download_document_interpret ⟨status, text, some (Json.obj fields)⟩ =
        .error (.apiError ("Failed to download document: " ++
          pyStr ((lookupField fields "message").getD (Json.str "Unknown error")))) ∧
      download_document_interpret ⟨status, text, none⟩ =
        .error (.apiError ("Failed to download document: " ++ text))) ∧
    (∀ r : HttpResponse, 400 ≤ r.status_code →
      (∀ v, upload_documents_interpret r ≠ .ok v) ∧
      ∀ v, download_document_interpret r ≠ .ok v) ∧
    (∀ r : HttpResponse, r.jsonBody = none →
      ∀ v, upload_documents_interpret r ≠ .ok v) := by
  refine ⟨?_, fun e => ⟨rfl, rfl, rfl, rfl, rfl, rfl, rfl, rfl, rfl, rfl, rfl, rfl⟩,
    ⟨?_, ?_, ?_, ?_, ?_⟩, ?_, ?_, ?_⟩
  · simp [create_chat_completion_nonstream, h]
  · simp [create_dataset_interpret, h]
  · simp [list_datasets_interpret, h]
  · simp [retrieve_chunks_interpret, h]
  · simp [get_chunk_interpret, h]
  · simp [parse_documents_interpret, h]
  · intro status text fields hs
    constructor
    · unfold download_document_interpret
      simp [pyDictGet, hs]
    · unfold download_document_interpret
      simp [hs]
  · intro r hr
    constructor
    · intro v hok
      unfold upload_documents_interpret at hok
      split at hok
      · exact Except.noConfusion hok
      · rw [if_pos hr] at hok
        split at hok
        · exact Except.noConfusion hok
        · exact Except.noConfusion hok
    · intro v hok
      unfold download_document_interpret at hok
      rw [if_pos hr] at hok
      split at hok
      · split at hok
        · exact Except.noConfusion hok
        · exact Except.noConfusion hok
      · exact Except.noConfusion hok
  · intro r hb v hok
    unfold upload_documents_interpret at hok
    rw [hb] at hok
    exact Except.noConfusion hok

/-- Witness for C5: a `{"code": 1}` envelope (interpreter `APIError`)
makes the non-streaming chat path return `None`. -/
theorem c5_chat_swallows_interpreter_apierror_witness :
    create_chat_completion_nonstream (.ok (Json.obj [("code", Json.num 1)])) =
      .ok none :=
  (c5_chat_swallows_interpreter_apierror (Json.obj [("code", Json.num 1)])
    ("API请求失败，错误信息：未知错误") rfl).1

/-- C6 counterexample: `create_dataset` with unset `embedding_model` and
`description` still puts both keys into the JSON body (as JSON `null`),
unlike the omission the claim states. -/
theorem c6_counterexample_create_dataset_null_keys :
    lookupField (create_dataset_body "kb" none none "naive" none "me")
      "embedding_model" = some Json.null ∧
    lookupField (create_dataset_body "kb" none none "naive" none "me")
      "description" = some Json.null ∧
    lookupField (create_dataset_body "kb" none none "naive" none "me")
      "embedding_model" ≠ none :=
  ⟨rfl, rfl, fun h => Option.noConfusion h⟩

/-- C6 amended: `update_dataset` does omit unset optional fields from
its body (an unset `embedding_model` key is absent, and with nothing set
the body is empty), but `create_dataset` builds its body
unconditionally: unset `embedding_model` and `description` are sent as
JSON `null` keys, not omitted. -/
theorem c6_optional_field_omission (name chunk_method permission : String)
    (parser_config : Option Json) (n cm : Option String) :
    lookupField (create_dataset_body name none none chunk_method parser_config
      permission) "embedding_model" = some Json.null ∧
    lookupField (create_dataset_body name none none chunk_method parser_config
      permission) "description" = some Json.null ∧
    lookupField (update_dataset_body n none cm) "embedding_model" = none ∧
    update_dataset_body none none none = [] := by
  refine ⟨rfl, rfl, ?_, rfl⟩
  cases n with
  | none =>
      cases cm with
      | none => rfl
      | some c =>
          by_cases hc : c = "" <;>
            simp [update_dataset_body, truthyStrEntry, lookupField, hc]
  | some s =>
      cases cm with
      | none =>
          by_cases hs : s = "" <;>
            simp [update_dataset_body, truthyStrEntry, lookupField, hs]
      | some c =>
          by_cases hs : s = "" <;> by_cases hc : c = "" <;>
            simp [update_dataset_body, truthyStrEntry, lookupField, hs, hc]

/-- C7 counterexample: a successful upload whose `data` element
`{"id": "d1"}` is returned as a raw mapping although it fails `Document`
validation (nine required fields missing) — so the returned value is not
a list of typed `Document` model instances, the signature's annotation
notwithstanding.  (The in-repo caller depends on this: the batch script
reads `docs[0].get("id")`, a dict operation.) -/
theorem c7_counterexample_unwrapped_documents :
    upload_documents_interpret ⟨200, "",
      some (Json.obj [("code", Json.num 0),
        ("data", Json.arr [Json.obj [("id", Json.str "d1")]])])⟩ =
      .ok (Json.arr [Json.obj [("id", Json.str "d1")]]) ∧
    Document.fromJson (Json.obj [("id", Json.str "d1")]) = none :=
  ⟨rfl, rfl⟩

/-- C7 amended: for every successful call (status below 400, JSON
mapping body), `upload_documents` returns the body's raw `data` field —
`[]` when absent — without wrapping the elements in the `Document` model
type. -/
theorem c7_upload_documents_returns_raw_data (status : Nat) (text : String)
    (fields : List (String × Json)) (hstatus : status < 400) :
    upload_documents_interpret ⟨status, text, some (Json.obj fields)⟩ =
      .ok ((lookupField fields "data").getD (Json.arr [])) := by
  unfold upload_documents_interpret
  simp [pyDictGet, Nat.not_le.mpr hstatus]

/-- Witness for the amended C7 at a concrete 200 response. -/
theorem c7_upload_documents_returns_raw_data_witness :
    upload_documents_interpret ⟨200, "",
      some (Json.obj [("code", Json.num 0), ("data", Json.str "raw")])⟩ =
      .ok (Json.str "raw") := by
  have h := c7_upload_documents_returns_raw_data 200 ""
    [("code", Json.num 0), ("data", Json.str "raw")] (by decide)
  simpa using h

/-- C8: when the dataset lookup by exact name returns an empty list, the
batch script raises `ResourceNotFoundError` before the directory is
scanned: the scan stage is never reached, no upload is attempted, and no
parse is triggered. -/
theorem c8_script_aborts_on_missing_dataset (env : ScriptEnv)
    (dataset_name doc_dir : String)
    (h : env.datasets = .ok []) :
    (upload_and_parse_documents env dataset_name doc_dir).result =
      .error (.ragError (.resourceNotFoundError
        ("数据集 " ++ dataset_name ++ " 不存在"))) ∧
    (upload_and_parse_documents env dataset_name doc_dir).scannedDir = false ∧
    (upload_and_parse_documents env dataset_name doc_dir).uploadsAttempted = [] ∧
    (upload_and_parse_documents env dataset_name doc_dir).uploadedDocIds = [] ∧
    (upload_and_parse_documents env dataset_name doc_dir).parseTriggered = false := by
  unfold upload_and_parse_documents
  rw [h]
  exact ⟨rfl, rfl, rfl, rfl, rfl⟩

/-- Witness for C8 at a concrete environment (existing directory with a
supported file; the lookup returns no dataset). -/
theorem c8_script_aborts_on_missing_dataset_witness :
    (upload_and_parse_documents
      { datasets := .ok [], dirExists := true, dirIsDir := true,
        entries := [⟨"a.pdf", true⟩],
        uploadFor := fun _ => .ok (Json.arr []),
        parseResult := .ok (Json.obj []) } "kb" "/docs").result =
      .error (.ragError (.resourceNotFoundError "数据集 kb 不存在")) :=
  (c8_script_aborts_on_missing_dataset
    { datasets := .ok [], dirExists := true, dirIsDir := true,
      entries := [⟨"a.pdf", true⟩],
      uploadFor := fun _ => .ok (Json.arr []),
      parseResult := .ok (Json.obj []) } "kb" "/docs" rfl).1
